import Mathlib

/-!
Shallow embedding of `src/backend/routers/announcements.py`: a FastAPI router
exposing CRUD endpoints over a MongoDB `announcements` collection, with a
username-existence authorization check against a `teachers` collection.

Modelling choices:
* A MongoDB document's optional `start_date` field is tri-state (absent, null,
  or a string); it is embedded as `Option (Option String)` where `none` means
  the field is absent, `some none` means the field is present with value null,
  and `some (some s)` means the field holds the string `s`.
* The collections are lists in insertion order (the store-native order).
* `datetime.utcnow().isoformat()` is a parameter `utcnowIso`; the code appends
  `"Z"` to it, which the embedding reproduces.
* The store-assigned `ObjectId` of `insert_one` is a parameter `newId`.
* `datetime.fromisoformat` is modelled by `pyFromisoformatOk` following the
  CPython (<= 3.10) grammar `YYYY-MM-DD[*HH[:MM[:SS[.fff[fff]]]][(+|-)HH:MM[:SS[.ffffff]]]]`
  with the constructor range checks of `date`, `time` and `timezone`.
* `HTTPException` is an error value carrying `status_code` and `detail`;
  endpoint handlers return `Except HTTPError _`, pairing the response with the
  new collection state for the mutating endpoints.
-/

namespace Announcements

/-- A document of the `teachers` collection (keyed by `_id`). -/
structure Teacher where
  oid : String
  username : String
  display_name : String
  role : String
deriving Repr, DecidableEq

/-- A document of the `announcements` collection.  `start_date` is tri-state:
`none` = field absent, `some none` = null, `some (some s)` = value `s`. -/
structure Announcement where
  oid : String
  message : String
  start_date : Option (Option String)
  end_date : String
  created_by : String
  created_at : String
deriving Repr, DecidableEq

/-- The response item shape built by the list endpoints; `announcement.get("start_date")`
collapses an absent field and a null value both to `None`. -/
structure AnnouncementOut where
  id : String
  message : String
  start_date : Option String
  end_date : String
  created_by : String
  created_at : String
deriving Repr, DecidableEq

/-- Model of `raise HTTPException(status_code=..., detail=...)`. -/
structure HTTPError where
  status_code : Nat
  detail : String
deriving Repr, DecidableEq

/-- The dict returned by `verify_authenticated_user`. -/
structure UserInfo where
  username : String
  display_name : String
  role : String
deriving Repr, DecidableEq

/-- Python truthiness of an optional string parameter
(`None` and `""` are falsy). -/
def truthy : Option String → Bool
  | none => false
  | some s => !(s == "")

/-- Characters for which Python's `str.isspace()` holds — the set removed by
`str.strip()`: the ASCII whitespace 09-0D and 20, the separators 1C-1F, NEL
85, NBSP A0, Ogham space 1680, the Zs range 2000-200A, line and paragraph
separators 2028/2029, narrow NBSP 202F, medium mathematical space 205F and
ideographic space 3000. -/
def isPySpace (c : Char) : Bool :=
  (0x09 ≤ c.toNat && c.toNat ≤ 0x0D) || c.toNat == 0x20 ||
  (0x1C ≤ c.toNat && c.toNat ≤ 0x1F) || c.toNat == 0x85 || c.toNat == 0xA0 ||
  c.toNat == 0x1680 || (0x2000 ≤ c.toNat && c.toNat ≤ 0x200A) ||
  c.toNat == 0x2028 || c.toNat == 0x2029 || c.toNat == 0x202F ||
  c.toNat == 0x205F || c.toNat == 0x3000

/-- Model of `message.strip()`: remove leading and trailing whitespace. -/
def pyStrip (s : String) : String :=
  String.mk (((s.data.dropWhile isPySpace).reverse.dropWhile isPySpace).reverse)

/-- Model of `announcement.get("start_date")`: absent and null both read as `None`. -/
def flatStart : Option (Option String) → Option String
  | none => none
  | some o => o

/-- The response dict built for one announcement by both list endpoints. -/
def toOut (a : Announcement) : AnnouncementOut :=
  { id := a.oid
    message := a.message
    start_date := flatStart a.start_date
    end_date := a.end_date
    created_by := a.created_by
    created_at := a.created_at }

/-- Lexicographic order on code points, which for UTF-8 agrees with MongoDB's
simple binary collation. -/
def strleList : List Char → List Char → Bool
  | [], _ => true
  | _ :: _, [] => false
  | a :: as, b :: bs =>
    if a.toNat < b.toNat then true
    else if b.toNat < a.toNat then false
    else strleList as bs

/-- Boolean string order `a <= b` used to model MongoDB's `$lte` / `$gte`. -/
def strle (a b : String) : Bool := strleList a.data b.data

/-- Model of `teachers_collection.find_one({"_id": username})`. -/
def find_one_teacher (teachers : List Teacher) (key : String) : Option Teacher :=
  teachers.find? (fun t => t.oid == key)

/-- Embedding of `verify_authenticated_user` (announcements.py lines 19-32). -/
def verify_authenticated_user (teachers : List Teacher) (username : String) :
    Except HTTPError UserInfo :=
  if username == "" then
    .error ⟨401, "Authentication required"⟩
  else
    match find_one_teacher teachers username with
    | none => .error ⟨401, "Invalid user"⟩
    | some t => .ok ⟨t.username, t.display_name, t.role⟩

/-! ### Model of `bson.ObjectId` -/

def isHexChar (c : Char) : Bool :=
  c.isDigit || ('a' ≤ c && c ≤ 'f') || ('A' ≤ c && c ≤ 'F')

/-- A string accepted by `ObjectId(...)`: exactly 24 hexadecimal characters. -/
def validObjectId (s : String) : Bool :=
  s.length == 24 && s.data.all isHexChar

/-- Model of `ObjectId(announcement_id)` inside `try/except`: `none` models the raised
`InvalidId`; on success the id is normalised (ObjectId equality is on the
underlying bytes, and `str(ObjectId)` is lowercase). -/
def parseObjectId (s : String) : Option String :=
  if validObjectId s then some (String.mk (s.data.map Char.toLower)) else none

/-! ### Model of `datetime.fromisoformat` (CPython <= 3.10 grammar) -/

def twoDigitNat (a b : Char) : Option Nat :=
  if a.isDigit && b.isDigit then
    some ((a.toNat - 48) * 10 + (b.toNat - 48))
  else none

def isLeapYear (y : Nat) : Bool :=
  (y % 4 == 0 && y % 100 != 0) || y % 400 == 0

def daysInMonth (y m : Nat) : Nat :=
  if m == 2 then (if isLeapYear y then 29 else 28)
  else if m == 4 || m == 6 || m == 9 || m == 11 then 30
  else 31

/-- Model of `_parse_isoformat_date` plus the `date(year, month, day)` range checks:
exactly `YYYY-MM-DD`, `1 <= year`, `1 <= month <= 12`, `1 <= day <= daysInMonth`. -/
def parseDateOk (cs : List Char) : Bool :=
  match cs with
  | [y1, y2, y3, y4, '-', m1, m2, '-', d1, d2] =>
    match twoDigitNat y1 y2, twoDigitNat y3 y4, twoDigitNat m1 m2, twoDigitNat d1 d2 with
    | some yh, some yl, some m, some d =>
      let y := yh * 100 + yl
      1 ≤ y && 1 ≤ m && m ≤ 12 && 1 ≤ d && d ≤ daysInMonth y m
    | _, _, _, _ => false
  | _ => false

/-- Model of `_parse_hh_mm_ss_ff`: `HH[:MM[:SS[.fff[fff]]]]`, two-digit components,
fraction of exactly 3 or 6 digits; returns `(hh, mm, ss)` on success. -/
def parseHMSF (cs : List Char) : Option (Nat × Nat × Nat) :=
  match cs with
  | [h1, h2] =>
    (twoDigitNat h1 h2).map (fun h => (h, 0, 0))
  | [h1, h2, ':', m1, m2] =>
    match twoDigitNat h1 h2, twoDigitNat m1 m2 with
    | some h, some m => some (h, m, 0)
    | _, _ => none
  | [h1, h2, ':', m1, m2, ':', s1, s2] =>
    match twoDigitNat h1 h2, twoDigitNat m1 m2, twoDigitNat s1 s2 with
    | some h, some m, some s => some (h, m, s)
    | _, _, _ => none
  | h1 :: h2 :: ':' :: m1 :: m2 :: ':' :: s1 :: s2 :: '.' :: frac =>
    match twoDigitNat h1 h2, twoDigitNat m1 m2, twoDigitNat s1 s2 with
    | some h, some m, some s =>
      if (frac.length == 3 || frac.length == 6) && frac.all Char.isDigit then
        some (h, m, s)
      else none
    | _, _, _ => none
  | _ => none

/-- Model of `tstr.find('-') + 1 or tstr.find('+') + 1`: split the time string at the
first `'-'` when present, else at the first `'+'`. -/
def splitTz (cs : List Char) : List Char × Option (List Char) :=
  match cs.findIdx? (· == '-') with
  | some i => (cs.take i, some (cs.drop (i + 1)))
  | none =>
    match cs.findIdx? (· == '+') with
    | some i => (cs.take i, some (cs.drop (i + 1)))
    | none => (cs, none)

/-- The time-zone substring: length in {5, 8, 15}, `_parse_hh_mm_ss_ff` format,
and the `timezone` constructor's strict bound `|offset| < 24h`. -/
def parseTzOk (cs : List Char) : Bool :=
  (cs.length == 5 || cs.length == 8 || cs.length == 15) &&
    match parseHMSF cs with
    | some (h, m, s) => h * 3600 + m * 60 + s < 86400
    | none => false

/-- Model of `_parse_isoformat_time` plus the `time(...)` range checks. -/
def parseTimeOk (cs : List Char) : Bool :=
  2 ≤ cs.length &&
    let (timePart, tzPart) := splitTz cs
    (match parseHMSF timePart with
     | some (h, m, s) => h ≤ 23 && m ≤ 59 && s ≤ 59
     | none => false) &&
    (match tzPart with
     | none => true
     | some tz => parseTzOk tz)

/-- Holds when `datetime.fromisoformat(s)` succeeds (CPython <= 3.10): a ten-character
date, optionally followed by one separator character and a time string. -/
def pyFromisoformatOk (s : String) : Bool :=
  let cs := s.data
  parseDateOk (cs.take 10) &&
    (cs.length == 10 || (11 < cs.length && parseTimeOk (cs.drop 11)))

/-- Model of `s.replace('Z', '+00:00')`: the pattern is the single character `'Z'`, so
the replacement is character by character over the whole string. -/
def replaceZ : List Char → List Char
  | [] => []
  | c :: cs =>
    if c == 'Z' then '+' :: '0' :: '0' :: ':' :: '0' :: '0' :: replaceZ cs
    else c :: replaceZ cs

/-- Holds when `datetime.fromisoformat(s.replace('Z', '+00:00'))` succeeds. -/
def dateOkZ (s : String) : Bool :=
  pyFromisoformatOk (String.mk (replaceZ s.data))

/-! ### GET `/announcements/` (lines 35-61) -/

/-- The MongoDB filter of `get_active_announcements`:
`$or` of `start_date` absent (`$exists: false`), `start_date` null, and
`start_date $lte current_time`, conjoined with `end_date $gte current_time`.
(`$lte`/`$gte` with a string operand only match string values.) -/
def activeQuery (a : Announcement) (current_time : String) : Bool :=
  (match a.start_date with
   | none => true
   | some none => true
   | some (some s) => strle s current_time) &&
  strle current_time a.end_date

/-- One step of a stable descending insertion sort on `created_at`, modelling
`.sort("created_at", pymongo.DESCENDING)` with ties kept in store-native order. -/
def insertDesc (a : Announcement) : List Announcement → List Announcement
  | [] => [a]
  | b :: bs =>
    if strle b.created_at a.created_at then a :: b :: bs
    else b :: insertDesc a bs

/-- Model of `.sort("created_at", pymongo.DESCENDING)`, stable. -/
def sortByCreatedAtDesc (l : List Announcement) : List Announcement :=
  l.foldr insertDesc []

/-- The records produced by `announcements_collection.find({...}).sort(...)`
in `get_active_announcements`, before response mapping. -/
def list_active (db : List Announcement) (current_time : String) : List Announcement :=
  sortByCreatedAtDesc (db.filter (fun a => activeQuery a current_time))

/-- Embedding of `get_active_announcements` (lines 35-61).  `utcnowIso` stands for
`datetime.utcnow().isoformat()`; the code appends `"Z"` to it. -/
def get_active_announcements (db : List Announcement) (utcnowIso : String) :
    List AnnouncementOut :=
  (list_active db (utcnowIso ++ "Z")).map toOut

/-! ### GET `/announcements/manage` (lines 64-82) -/

/-- Model of `announcements_collection.find().sort("created_at", pymongo.DESCENDING)`. -/
def list_all (db : List Announcement) : List Announcement :=
  sortByCreatedAtDesc db

/-- Embedding of `get_all_announcements` (lines 64-82). -/
def get_all_announcements (teachers : List Teacher) (db : List Announcement)
    (username : String) : Except HTTPError (List AnnouncementOut) :=
  match verify_authenticated_user teachers username with
  | .error e => .error e
  | .ok _user => .ok ((list_all db).map toOut)

/-! ### POST `/announcements/` (lines 85-124) -/

/-- The response dict of `create_announcement`. -/
structure CreateResponse where
  id : String
  message : String
deriving Repr, DecidableEq

/-- Embedding of `create_announcement` (lines 85-124).  `start_date : Option String` models
the `start_date: str = None` parameter (`none` = omitted / `None`); `newId`
is the `ObjectId` assigned by `insert_one`; `utcnowIso` stands for
`datetime.utcnow().isoformat()`.  Returns the new collection paired with the
response. -/
def create_announcement (teachers : List Teacher) (db : List Announcement)
    (message end_date username : String) (start_date : Option String)
    (utcnowIso newId : String) :
    Except HTTPError (List Announcement × CreateResponse) :=
  match verify_authenticated_user teachers username with
  | .error e => .error e
  | .ok _user =>
    if pyStrip message == "" then
      .error ⟨400, "Message cannot be empty"⟩
    else if end_date == "" then
      .error ⟨400, "End date is required"⟩
    else if !dateOkZ end_date then
      .error ⟨400, "Invalid date format"⟩
    else if truthy start_date && !dateOkZ ((start_date.getD "")) then
      .error ⟨400, "Invalid date format"⟩
    else
      let announcement_data : Announcement :=
        { oid := newId
          message := pyStrip message
          start_date :=
            if truthy start_date then some (some (start_date.getD "")) else none
          end_date := end_date
          created_by := username
          created_at := utcnowIso ++ "Z" }
      .ok (db ++ [announcement_data], ⟨newId, "Announcement created successfully"⟩)

/-! ### PUT `/announcements/{announcement_id}` (lines 127-180) -/

/-- Model of `announcements_collection.find_one({"_id": obj_id})`. -/
def find_one (db : List Announcement) (oid : String) : Option Announcement :=
  db.find? (fun a => a.oid == oid)

/-- Model of `update_one({"_id": obj_id}, {"$unset": {"start_date": ""}})`: removes the
`start_date` field from the matching document. -/
def unset_start_date (db : List Announcement) (oid : String) : List Announcement :=
  db.map (fun a => if a.oid == oid then { a with start_date := none } else a)

/-- Model of `update_one({"_id": obj_id}, {"$set": update_data})` where `update_data`
holds `message`, `end_date` and, when `sd = some s`, also `start_date`. -/
def set_update_data (db : List Announcement) (oid : String)
    (message end_date : String) (sd : Option String) : List Announcement :=
  db.map (fun a =>
    if a.oid == oid then
      { a with
        message := message
        end_date := end_date
        start_date := match sd with
          | some s => some (some s)
          | none => a.start_date }
    else a)

/-- Embedding of `update_announcement` (lines 127-180). -/
def update_announcement (teachers : List Teacher) (db : List Announcement)
    (announcement_id message end_date username : String)
    (start_date : Option String) :
    Except HTTPError (List Announcement × String) :=
  match verify_authenticated_user teachers username with
  | .error e => .error e
  | .ok _user =>
    match parseObjectId announcement_id with
    | none => .error ⟨400, "Invalid announcement ID"⟩
    | some obj_id =>
      match find_one db obj_id with
      | none => .error ⟨404, "Announcement not found"⟩
      | some _announcement =>
        if pyStrip message == "" then
          .error ⟨400, "Message cannot be empty"⟩
        else if end_date == "" then
          .error ⟨400, "End date is required"⟩
        else if !dateOkZ end_date then
          .error ⟨400, "Invalid date format"⟩
        else if truthy start_date && !dateOkZ ((start_date.getD "")) then
          .error ⟨400, "Invalid date format"⟩
        else
          let db1 :=
            if truthy start_date then db else unset_start_date db obj_id
          let db2 :=
            set_update_data db1 obj_id (pyStrip message) end_date
              (if truthy start_date then some (start_date.getD "") else none)
          .ok (db2, "Announcement updated successfully")

/-! ### DELETE `/announcements/{announcement_id}` (lines 183-197) -/

/-- Model of `announcements_collection.delete_one({"_id": obj_id})`: removes the first
matching document; returns the new collection and `deleted_count`. -/
def delete_one (db : List Announcement) (oid : String) : List Announcement × Nat :=
  match db with
  | [] => ([], 0)
  | a :: rest =>
    if a.oid == oid then (rest, 1)
    else (a :: (delete_one rest oid).1, (delete_one rest oid).2)

/-- Embedding of `delete_announcement` (lines 183-197). -/
def delete_announcement (teachers : List Teacher) (db : List Announcement)
    (announcement_id username : String) :
    Except HTTPError (List Announcement × String) :=
  match verify_authenticated_user teachers username with
  | .error e => .error e
  | .ok _user =>
    match parseObjectId announcement_id with
    | none => .error ⟨400, "Invalid announcement ID"⟩
    | some obj_id =>
      let (db2, deleted_count) := delete_one db obj_id
      if deleted_count == 0 then
        .error ⟨404, "Announcement not found"⟩
      else
        .ok (db2, "Announcement deleted successfully")

/-! ### The spec's "active" predicate (section 3 of the spec), for refinement -/

/-- Modelled from the spec's words, not from the code: "An announcement is
'active' at instant T iff (`start_date` is absent OR `start_date` <= T) AND
`end_date` >= T, where comparison is lexicographic over ISO-8601 strings".
`start_date` here is the spec's optional string (absent or a value). -/
def is_active_spec (start_date : Option String) (end_date T : String) : Bool :=
  (match start_date with
   | none => true
   | some s => strle s T) &&
  strle T end_date

/-! ### Helper lemmas -/

theorem strleList_refl (cs : List Char) : strleList cs cs = true := by
  induction cs with
  | nil => rfl
  | cons a as ih => simp [strleList, ih]

theorem strle_refl (s : String) : strle s s = true :=
  strleList_refl s.data

theorem strleList_total (as bs : List Char) :
    strleList as bs = true ∨ strleList bs as = true := by
  induction as generalizing bs with
  | nil => left; rfl
  | cons a as ih =>
    cases bs with
    | nil => right; rfl
    | cons b bs =>
      rcases Nat.lt_trichotomy a.toNat b.toNat with h | h | h
      · left; simp [strleList, h]
      · rcases ih bs with h2 | h2
        · left; simp [strleList, h, h2]
        · right; simp [strleList, h.symm, h2]
      · right; simp [strleList, h]

theorem strle_total (a b : String) : strle a b = true ∨ strle b a = true :=
  strleList_total a.data b.data

theorem strleList_trans {as bs cs : List Char}
    (h1 : strleList as bs = true) (h2 : strleList bs cs = true) :
    strleList as cs = true := by
  induction as generalizing bs cs with
  | nil => rfl
  | cons a as ih =>
    cases bs with
    | nil => simp [strleList] at h1
    | cons b bs =>
      cases cs with
      | nil => simp [strleList] at h2
      | cons c cs =>
        simp only [strleList] at h1 h2 ⊢
        rcases Nat.lt_trichotomy a.toNat b.toNat with hab | hab | hab
        · rcases Nat.lt_trichotomy b.toNat c.toNat with hbc | hbc | hbc
          · rw [if_pos (Nat.lt_trans hab hbc)]
          · rw [if_pos (show a.toNat < c.toNat by omega)]
          · rw [if_neg (by omega), if_pos hbc] at h2
            simp at h2
        · rw [if_neg (by omega), if_neg (by omega)] at h1
          rcases Nat.lt_trichotomy b.toNat c.toNat with hbc | hbc | hbc
          · rw [if_pos (show a.toNat < c.toNat by omega)]
          · rw [if_neg (by omega), if_neg (by omega)] at h2
            rw [if_neg (by omega), if_neg (by omega)]
            exact ih h1 h2
          · rw [if_neg (by omega), if_pos hbc] at h2
            simp at h2
        · rw [if_neg (by omega), if_pos hab] at h1
          simp at h1

theorem strle_trans {a b c : String}
    (h1 : strle a b = true) (h2 : strle b c = true) : strle a c = true :=
  strleList_trans h1 h2

theorem strle_false_of_not (a b : String) (h : strle a b = false) :
    strle b a = true := by
  rcases strle_total a b with h1 | h1
  · rw [h1] at h; exact absurd h (by simp)
  · exact h1

theorem mem_insertDesc (a x : Announcement) (l : List Announcement) :
    x ∈ insertDesc a l ↔ x = a ∨ x ∈ l := by
  induction l with
  | nil => simp [insertDesc]
  | cons b bs ih =>
    by_cases h : strle b.created_at a.created_at = true
    · simp [insertDesc, h]
    · simp only [insertDesc, if_neg h, List.mem_cons, ih]
      tauto

theorem insertDesc_perm (a : Announcement) (l : List Announcement) :
    List.Perm (insertDesc a l) (a :: l) := by
  induction l with
  | nil => exact List.Perm.refl _
  | cons b bs ih =>
    by_cases h : strle b.created_at a.created_at = true
    · simp [insertDesc, h]
    · simp only [insertDesc, if_neg h]
      exact ((ih.cons b).trans (List.Perm.swap a b bs))

theorem sortByCreatedAtDesc_perm (l : List Announcement) :
    List.Perm (sortByCreatedAtDesc l) l := by
  induction l with
  | nil => exact List.Perm.refl _
  | cons a as ih =>
    exact (insertDesc_perm a (sortByCreatedAtDesc as)).trans (ih.cons a)

theorem mem_sortByCreatedAtDesc (x : Announcement) (l : List Announcement) :
    x ∈ sortByCreatedAtDesc l ↔ x ∈ l :=
  (sortByCreatedAtDesc_perm l).mem_iff

/-- The descending order on `created_at` used by the sort. -/
def createdDesc (a b : Announcement) : Prop :=
  strle b.created_at a.created_at = true

theorem pairwise_insertDesc (a : Announcement) (l : List Announcement)
    (h : l.Pairwise createdDesc) :
    (insertDesc a l).Pairwise createdDesc := by
  induction l with
  | nil => simp [insertDesc, List.Pairwise.nil]
  | cons b bs ih =>
    rcases List.pairwise_cons.mp h with ⟨hb, hbs⟩
    by_cases hba : strle b.created_at a.created_at = true
    · rw [insertDesc, if_pos hba]
      refine List.pairwise_cons.mpr ⟨?_, h⟩
      intro y hy
      rcases List.mem_cons.mp hy with rfl | hy
      · exact hba
      · exact strle_trans (hb y hy) hba
    · rw [insertDesc, if_neg hba]
      refine List.pairwise_cons.mpr ⟨?_, ih hbs⟩
      intro y hy
      rcases (mem_insertDesc a y bs).mp hy with rfl | hy
      · exact strle_false_of_not _ _ (by simpa using hba)
      · exact hb y hy

theorem pairwise_sortByCreatedAtDesc (l : List Announcement) :
    (sortByCreatedAtDesc l).Pairwise createdDesc := by
  induction l with
  | nil => exact List.Pairwise.nil
  | cons a as ih => exact pairwise_insertDesc a _ ih

theorem filter_insertDesc (c : String) (a : Announcement) (l : List Announcement) :
    (insertDesc a l).filter (fun x => x.created_at == c) =
      if a.created_at == c then a :: l.filter (fun x => x.created_at == c)
      else l.filter (fun x => x.created_at == c) := by
  induction l with
  | nil => by_cases h : a.created_at == c <;> simp [insertDesc, List.filter, h]
  | cons b bs ih =>
    by_cases hba : strle b.created_at a.created_at = true
    · by_cases h : a.created_at == c <;> simp [insertDesc, hba, List.filter, h]
    · have hne : b.created_at ≠ a.created_at := by
        intro he
        exact hba (he ▸ strle_refl b.created_at)
      simp only [insertDesc, if_neg hba, List.filter, ih]
      by_cases hb : b.created_at == c
      · have ha : (a.created_at == c) = false := by
          refine beq_eq_false_iff_ne.mpr ?_
          intro he
          exact hne ((beq_iff_eq.mp hb).trans he.symm)
        simp [hb, ha]
      · simp only [Bool.not_eq_true] at hb
        by_cases ha : a.created_at == c <;> simp [hb, ha]

theorem filter_sortByCreatedAtDesc (c : String) (l : List Announcement) :
    (sortByCreatedAtDesc l).filter (fun x => x.created_at == c) =
      l.filter (fun x => x.created_at == c) := by
  induction l with
  | nil => rfl
  | cons a as ih =>
    have := filter_insertDesc c a (sortByCreatedAtDesc as)
    by_cases h : a.created_at == c
    · simp only [sortByCreatedAtDesc, List.foldr] at *
      rw [this, if_pos h, ih, List.filter, h]
    · simp only [sortByCreatedAtDesc, List.foldr] at *
      rw [this, if_neg h, ih, List.filter]
      simp only [Bool.not_eq_true] at h
      rw [h]

theorem mem_list_active (db : List Announcement) (T : String) (A : Announcement) :
    A ∈ list_active db T ↔ A ∈ db ∧ activeQuery A T = true := by
  rw [list_active, mem_sortByCreatedAtDesc, List.mem_filter]

theorem validObjectId_ne_empty (s : String) (h : validObjectId s = true) :
    s ≠ "" := by
  intro he
  rw [he] at h
  exact absurd h (by decide)

theorem find_one_none_iff (db : List Announcement) (oid : String) :
    find_one db oid = none ↔ ∀ a ∈ db, (a.oid == oid) = false := by
  simp [find_one, List.find?_eq_none]

theorem delete_one_not_found (db : List Announcement) (oid : String)
    (h : find_one db oid = none) : delete_one db oid = (db, 0) := by
  rw [find_one_none_iff] at h
  induction db with
  | nil => rfl
  | cons a as ih =>
    have ha := h a (List.mem_cons_self a as)
    have ih2 := ih (fun b hb => h b (List.mem_cons_of_mem a hb))
    simp [delete_one, ha, ih2]

theorem delete_one_count_pos (db : List Announcement) (oid : String)
    (A : Announcement) (h : find_one db oid = some A) :
    (delete_one db oid).2 = 1 := by
  induction db with
  | nil => simp [find_one] at h
  | cons a as ih =>
    by_cases ha : (a.oid == oid) = true
    · simp [delete_one, ha]
    · rw [Bool.not_eq_true] at ha
      rw [show find_one (a :: as) oid = find_one as oid by simp [find_one, List.find?_cons, ha]] at h
      have := ih h
      simp [delete_one, ha, this]

theorem find_one_after_delete (db : List Announcement) (oid : String)
    (nodup : (db.map Announcement.oid).Nodup) :
    find_one (delete_one db oid).1 oid = none := by
  induction db with
  | nil => rfl
  | cons a as ih =>
    rw [List.map_cons, List.nodup_cons] at nodup
    obtain ⟨hnot, ntail⟩ := nodup
    by_cases ha : (a.oid == oid) = true
    · have hoid : a.oid = oid := beq_iff_eq.mp ha
      rw [delete_one, if_pos ha]
      rw [find_one_none_iff]
      intro b hb
      refine beq_eq_false_iff_ne.mpr ?_
      intro hbe
      exact hnot (hoid ▸ hbe ▸ List.mem_map_of_mem Announcement.oid hb)
    · rw [Bool.not_eq_true] at ha
      have := ih ntail
      simp only [delete_one, ha, Bool.false_eq_true, if_false]
      rw [show find_one (a :: (delete_one as oid).1) oid =
            find_one (delete_one as oid).1 oid by
          simp [find_one, List.find?_cons, ha]]
      exact this

/-- The composition of the `$unset` and `$set` operations performed by
`update_announcement` when `start_date` is not provided. -/
theorem set_after_unset (db : List Announcement) (oid m ed : String) :
    set_update_data (unset_start_date db oid) oid m ed none =
      db.map (fun a =>
        if a.oid == oid then
          { a with message := m, end_date := ed, start_date := none }
        else a) := by
  rw [unset_start_date, set_update_data, List.map_map]
  refine List.map_congr_left ?_
  intro a _
  by_cases h : (a.oid == oid) = true
  · simp [Function.comp, h]
  · rw [Bool.not_eq_true] at h
    simp [Function.comp, h]

/-! ### Sample data for concrete instantiations -/

def tAlice : Teacher := ⟨"alice", "alice", "Alice Smith", "teacher"⟩

def oidA : String := "0123456789abcdef01234501"

def oidB : String := "0123456789abcdef01234502"

def annA : Announcement :=
  ⟨oidA, "Exam tomorrow", some (some "2020-01-01T00:00:00Z"),
   "2099-01-01T00:00:00Z", "alice", "2024-01-01T00:00:00Z"⟩

def annOld : Announcement :=
  ⟨oidB, "Old news", none, "2000-01-01T00:00:00Z", "alice",
   "2023-01-01T00:00:00Z"⟩

def annNull : Announcement :=
  ⟨oidB, "Null start", some none, "2099-01-01T00:00:00Z", "alice",
   "2023-06-01T00:00:00Z"⟩

def nowT : String := "2024-06-01T00:00:00Z"

/-! ### Claim theorems -/

/-- C1: for every announcement and instant T, `list_active` at current time T
returns the announcement iff it is active at T in the sense of the spec's
predicate ((start_date absent or start_date <= T) and end_date >= T,
lexicographic string comparison); in particular it never returns a record with
end_date < T nor one with start_date > T.  (The spec predicate speaks of
records whose optional start_date is absent or a string, hence the hypothesis
excluding a stored null.) -/
theorem active_listing_matches_spec (db : List Announcement) (T : String)
    (A : Announcement) (hA : A.start_date ≠ some none) :
    (A ∈ list_active db T ↔
      A ∈ db ∧ is_active_spec (flatStart A.start_date) A.end_date T = true) ∧
    (∀ B ∈ list_active db T, strle T B.end_date = true ∧
      ∀ s, B.start_date = some (some s) → strle s T = true) := by
  constructor
  · rw [mem_list_active]
    have hq : activeQuery A T = is_active_spec (flatStart A.start_date) A.end_date T := by
      cases hsd : A.start_date with
      | none => simp [activeQuery, is_active_spec, flatStart, hsd]
      | some o =>
        cases o with
        | none => exact absurd hsd hA
        | some s => simp [activeQuery, is_active_spec, flatStart, hsd]
    rw [hq]
  · intro B hB
    obtain ⟨-, hq⟩ := (mem_list_active db T B).mp hB
    rw [activeQuery, Bool.and_eq_true] at hq
    refine ⟨hq.2, ?_⟩
    intro s hs
    have h1 := hq.1
    rw [hs] at h1
    exact h1

/-- Witness for C1 at a concrete database and instant. -/
theorem active_listing_matches_spec_witness :
    annA ∈ list_active [annA, annOld] nowT ↔
      annA ∈ [annA, annOld] ∧
        is_active_spec (flatStart annA.start_date) annA.end_date nowT = true :=
  (active_listing_matches_spec [annA, annOld] nowT annA (by decide)).1

/-- C9: a stored record whose `start_date` field is present but null is treated
by `list_active` exactly like one with the field absent: it is returned iff it
is in the collection and its `end_date` is >= the current time. -/
theorem null_start_date_is_active (db : List Announcement) (T : String)
    (A : Announcement) (hA : A.start_date = some none) :
    A ∈ list_active db T ↔ A ∈ db ∧ strle T A.end_date = true := by
  rw [mem_list_active, activeQuery, hA]
  simp

/-- Witness for C9: a null-start record is listed when its end date has not
passed. -/
theorem null_start_date_is_active_witness :
    annNull ∈ list_active [annA, annNull] nowT ↔
      annNull ∈ [annA, annNull] ∧ strle nowT annNull.end_date = true :=
  null_start_date_is_active [annA, annNull] nowT annNull (by decide)

/-- C4: authorization fails with 401 for an empty identity and for an identity
with no record in the teachers directory; an identity with a record (and the
empty case already excluded by the first rule) succeeds and yields that
record's username, display_name and role, whatever the role is. -/
theorem authorize_behavior (teachers : List Teacher) (identity : String) :
    (identity = "" →
      verify_authenticated_user teachers identity =
        .error ⟨401, "Authentication required"⟩) ∧
    (find_one_teacher teachers identity = none →
      ∃ d, verify_authenticated_user teachers identity = .error ⟨401, d⟩) ∧
    (∀ t, find_one_teacher teachers identity = some t → identity ≠ "" →
      verify_authenticated_user teachers identity =
        .ok ⟨t.username, t.display_name, t.role⟩) := by
  refine ⟨?_, ?_, ?_⟩
  · intro h
    simp [verify_authenticated_user, h]
  · intro h
    by_cases he : identity = ""
    · exact ⟨"Authentication required", by simp [verify_authenticated_user, he]⟩
    · exact ⟨"Invalid user", by simp [verify_authenticated_user, he, h]⟩
  · intro t ht he
    simp [verify_authenticated_user, he, ht]

/-- Witness for C4: empty identity, unknown identity, and a known identity
against a one-teacher directory. -/
theorem authorize_behavior_witness :
    verify_authenticated_user [tAlice] "" =
        .error ⟨401, "Authentication required"⟩ ∧
    (∃ d, verify_authenticated_user [tAlice] "bob" = .error ⟨401, d⟩) ∧
    verify_authenticated_user [tAlice] "alice" =
        .ok ⟨"alice", "Alice Smith", "teacher"⟩ :=
  ⟨(authorize_behavior [tAlice] "").1 rfl,
   (authorize_behavior [tAlice] "bob").2.1 rfl,
   (authorize_behavior [tAlice] "alice").2.2 tAlice rfl (by decide)⟩

/-- C6: a successful create persists a record whose message is the submitted
message stripped of surrounding whitespace, whose end_date is the submitted
end_date, whose created_by is the requester identity, whose created_at is the
current UTC instant as an ISO-8601 Z-suffixed string, and whose start_date
field is present only when start_date was provided non-empty (absent, not
null, otherwise); the call returns the newly assigned non-empty id. -/
theorem create_success (teachers : List Teacher) (db : List Announcement)
    (message end_date username : String) (start_date : Option String)
    (utcnowIso newId : String) (u : UserInfo)
    (hu : verify_authenticated_user teachers username = .ok u)
    (hm : pyStrip message ≠ "")
    (he : end_date ≠ "")
    (hed : dateOkZ end_date = true)
    (hsd : truthy start_date = false ∨ dateOkZ (start_date.getD "") = true)
    (hid : validObjectId newId = true) :
    create_announcement teachers db message end_date username start_date
        utcnowIso newId =
      .ok (db ++
        [{ oid := newId
           message := pyStrip message
           start_date :=
             if truthy start_date then some (some (start_date.getD "")) else none
           end_date := end_date
           created_by := username
           created_at := utcnowIso ++ "Z" }],
        ⟨newId, "Announcement created successfully"⟩) ∧
      newId ≠ "" := by
  refine ⟨?_, validObjectId_ne_empty newId hid⟩
  simp only [create_announcement, hu]
  rw [if_neg (by simp [hm]), if_neg (by simp [he]), if_neg (by simp [hed])]
  rcases hsd with hsd | hsd
  · rw [if_neg (by simp [hsd])]
  · rw [if_neg (by simp [hsd])]

/-- Witness for C6: the spec's scenario, `create(user="alice",
message=" Exam tomorrow ", end_date="2099-01-01T00:00:00Z")`. -/
theorem create_success_witness :
    create_announcement [tAlice] [] " Exam tomorrow " "2099-01-01T00:00:00Z"
        "alice" none "2024-06-01T00:00:00" oidA =
      .ok ([{ oid := oidA
              message := "Exam tomorrow"
              start_date := none
              end_date := "2099-01-01T00:00:00Z"
              created_by := "alice"
              created_at := "2024-06-01T00:00:00Z" }],
        ⟨oidA, "Announcement created successfully"⟩) ∧
      oidA ≠ "" := by
  have h := create_success [tAlice] [] " Exam tomorrow " "2099-01-01T00:00:00Z"
    "alice" none "2024-06-01T00:00:00" oidA ⟨"alice", "Alice Smith", "teacher"⟩
    rfl (by decide) (by decide) (by decide) (Or.inl rfl) (by decide)
  exact h

/-- C2: a valid update with start_date omitted replaces the message by its
stripped form and the end_date, removes the start_date field entirely (the
field is absent afterwards, not null), and leaves id, created_by and
created_at of every record unchanged. -/
theorem update_unsets_start_date (teachers : List Teacher)
    (db : List Announcement) (announcement_id message end_date username : String)
    (obj_id : String) (A : Announcement) (u : UserInfo)
    (hu : verify_authenticated_user teachers username = .ok u)
    (hoid : parseObjectId announcement_id = some obj_id)
    (hfind : find_one db obj_id = some A)
    (hm : pyStrip message ≠ "")
    (he : end_date ≠ "")
    (hed : dateOkZ end_date = true) :
    update_announcement teachers db announcement_id message end_date username
        none =
      .ok (db.map (fun a =>
            if a.oid == obj_id then
              { a with
                message := pyStrip message
                end_date := end_date
                start_date := none }
            else a),
        "Announcement updated successfully") := by
  simp only [update_announcement, hu, hoid, hfind]
  rw [if_neg (by simp [hm]), if_neg (by simp [he]), if_neg (by simp [hed]),
    if_neg (by simp [truthy])]
  simp only [truthy, Bool.false_eq_true, if_false, Option.getD]
  rw [set_after_unset]

/-- Witness for C2: updating a record that had a start_date, omitting
start_date, leaves the field absent and the other stored fields intact. -/
theorem update_unsets_start_date_witness :
    update_announcement [tAlice] [annA] oidA " New text " "2100-01-01T00:00:00Z"
        "alice" none =
      .ok ([{ oid := oidA
              message := "New text"
              start_date := none
              end_date := "2100-01-01T00:00:00Z"
              created_by := "alice"
              created_at := "2024-01-01T00:00:00Z" }],
        "Announcement updated successfully") := by
  have h := update_unsets_start_date [tAlice] [annA] oidA " New text "
    "2100-01-01T00:00:00Z" "alice" oidA annA ⟨"alice", "Alice Smith", "teacher"⟩
    rfl (by decide) (by decide) (by decide) (by decide) (by decide)
  simpa [annA, oidA] using h

/-- Any of the four validation failures makes `create_announcement` raise. -/
theorem create_validation_error (teachers : List Teacher) (db : List Announcement)
    (message end_date username : String) (start_date : Option String)
    (utcnowIso newId : String) (u : UserInfo)
    (hu : verify_authenticated_user teachers username = .ok u)
    (hfail : pyStrip message = "" ∨ end_date = "" ∨ dateOkZ end_date = false ∨
      (truthy start_date = true ∧ dateOkZ (start_date.getD "") = false)) :
    ∃ e, create_announcement teachers db message end_date username start_date
        utcnowIso newId = .error e := by
  simp only [create_announcement, hu]
  by_cases h1 : (pyStrip message == "") = true
  · exact ⟨_, by rw [if_pos h1]⟩
  · rw [if_neg h1]
    by_cases h2 : (end_date == "") = true
    · exact ⟨_, by rw [if_pos h2]⟩
    · rw [if_neg h2]
      by_cases h3 : (!dateOkZ end_date) = true
      · exact ⟨_, by rw [if_pos h3]⟩
      · rw [if_neg h3]
        by_cases h4 : (truthy start_date && !dateOkZ (start_date.getD "")) = true
        · exact ⟨_, by rw [if_pos h4]⟩
        · exfalso
          rcases hfail with h | h | h | ⟨ht, hd⟩
          · exact h1 (by simp [h])
          · exact h2 (by simp [h])
          · exact h3 (by simp [h])
          · exact h4 (by simp [ht, hd])

/-- Any of the listed failures (bad id, missing record, or the four
validations) makes `update_announcement` raise. -/
theorem update_validation_error (teachers : List Teacher) (db : List Announcement)
    (announcement_id message end_date username : String)
    (start_date : Option String) (u : UserInfo)
    (hu : verify_authenticated_user teachers username = .ok u)
    (hfail : parseObjectId announcement_id = none ∨
      (∃ oid, parseObjectId announcement_id = some oid ∧ find_one db oid = none) ∨
      pyStrip message = "" ∨ end_date = "" ∨ dateOkZ end_date = false ∨
      (truthy start_date = true ∧ dateOkZ (start_date.getD "") = false)) :
    ∃ e, update_announcement teachers db announcement_id message end_date
        username start_date = .error e := by
  simp only [update_announcement, hu]
  cases hp : parseObjectId announcement_id with
  | none => exact ⟨_, rfl⟩
  | some oid =>
    dsimp only
    cases hf : find_one db oid with
    | none => exact ⟨_, rfl⟩
    | some A =>
      dsimp only
      by_cases h1 : (pyStrip message == "") = true
      · exact ⟨_, by rw [if_pos h1]⟩
      · rw [if_neg h1]
        by_cases h2 : (end_date == "") = true
        · exact ⟨_, by rw [if_pos h2]⟩
        · rw [if_neg h2]
          by_cases h3 : (!dateOkZ end_date) = true
          · exact ⟨_, by rw [if_pos h3]⟩
          · rw [if_neg h3]
            by_cases h4 : (truthy start_date && !dateOkZ (start_date.getD "")) = true
            · exact ⟨_, by rw [if_pos h4]⟩
            · exfalso
              rcases hfail with h | ⟨oid2, ho2, hf2⟩ | h | h | h | ⟨ht, hd⟩
              · rw [hp] at h; cases h
              · rw [hp] at ho2
                obtain rfl : oid = oid2 := Option.some.inj ho2
                rw [hf] at hf2; cases hf2
              · exact h1 (by simp [h])
              · exact h2 (by simp [h])
              · exact h3 (by simp [h])
              · exact h4 (by simp [ht, hd])

/-- C3: on every input where create or update fails validation (empty stripped
message, missing or malformed end_date, malformed provided start_date, or for
update a malformed or non-existent id), the call raises, so create persists no
record and update mutates no record: mutation only happens in the `.ok`
branch, which produces the new store state. -/
theorem validation_failure_no_mutation (teachers : List Teacher)
    (db : List Announcement) (announcement_id message end_date username : String)
    (start_date : Option String) (utcnowIso newId : String) (u : UserInfo)
    (hu : verify_authenticated_user teachers username = .ok u) :
    ((pyStrip message = "" ∨ end_date = "" ∨ dateOkZ end_date = false ∨
        (truthy start_date = true ∧ dateOkZ (start_date.getD "") = false)) →
      ∃ e, create_announcement teachers db message end_date username start_date
          utcnowIso newId = .error e) ∧
    ((parseObjectId announcement_id = none ∨
        (∃ oid, parseObjectId announcement_id = some oid ∧
          find_one db oid = none) ∨
        pyStrip message = "" ∨ end_date = "" ∨ dateOkZ end_date = false ∨
        (truthy start_date = true ∧ dateOkZ (start_date.getD "") = false)) →
      ∃ e, update_announcement teachers db announcement_id message end_date
          username start_date = .error e) :=
  ⟨fun hfail => create_validation_error teachers db message end_date username
      start_date utcnowIso newId u hu hfail,
   fun hfail => update_validation_error teachers db announcement_id message
      end_date username start_date u hu hfail⟩

/-- Witness for C3: the spec's scenario `create` with `end_date="not-a-date"`
raises, and `update` with a malformed id raises. -/
theorem validation_failure_no_mutation_witness :
    (∃ e, create_announcement [tAlice] [] "Hello" "not-a-date" "alice" none
        "2024-06-01T00:00:00" oidA = .error e) ∧
    (∃ e, update_announcement [tAlice] [] "xyz" "Hello"
        "2099-01-01T00:00:00Z" "alice" none = .error e) :=
  ⟨(validation_failure_no_mutation [tAlice] [] "xyz" "Hello" "not-a-date"
      "alice" none "2024-06-01T00:00:00" oidA
      ⟨"alice", "Alice Smith", "teacher"⟩ rfl).1
      (Or.inr (Or.inr (Or.inl (by decide)))),
   (validation_failure_no_mutation [tAlice] [] "xyz" "Hello"
      "2099-01-01T00:00:00Z" "alice" none "2024-06-01T00:00:00" oidA
      ⟨"alice", "Alice Smith", "teacher"⟩ rfl).2
      (Or.inl (by decide))⟩

/-- C5: for authorized calls, validation runs in the order (1) stripped
message non-empty, (2) end_date non-empty, (3) end_date parses as ISO-8601
with a Z suffix accepted, (4) a provided non-empty start_date parses as well;
each failing check raises HTTP 400, and update applies the same rules 1-4 as
create (after its id checks). -/
theorem validation_order (teachers : List Teacher) (db : List Announcement)
    (announcement_id message end_date username : String)
    (start_date : Option String) (utcnowIso newId : String) (u : UserInfo)
    (hu : verify_authenticated_user teachers username = .ok u) :
    ((pyStrip message = "" →
        create_announcement teachers db message end_date username start_date
          utcnowIso newId = .error ⟨400, "Message cannot be empty"⟩) ∧
     (pyStrip message ≠ "" → end_date = "" →
        create_announcement teachers db message end_date username start_date
          utcnowIso newId = .error ⟨400, "End date is required"⟩) ∧
     (pyStrip message ≠ "" → end_date ≠ "" → dateOkZ end_date = false →
        create_announcement teachers db message end_date username start_date
          utcnowIso newId = .error ⟨400, "Invalid date format"⟩) ∧
     (pyStrip message ≠ "" → end_date ≠ "" → dateOkZ end_date = true →
        truthy start_date = true → dateOkZ (start_date.getD "") = false →
        create_announcement teachers db message end_date username start_date
          utcnowIso newId = .error ⟨400, "Invalid date format"⟩)) ∧
    (∀ obj_id A, parseObjectId announcement_id = some obj_id →
      find_one db obj_id = some A →
      ((pyStrip message = "" →
          update_announcement teachers db announcement_id message end_date
            username start_date = .error ⟨400, "Message cannot be empty"⟩) ∧
       (pyStrip message ≠ "" → end_date = "" →
          update_announcement teachers db announcement_id message end_date
            username start_date = .error ⟨400, "End date is required"⟩) ∧
       (pyStrip message ≠ "" → end_date ≠ "" → dateOkZ end_date = false →
          update_announcement teachers db announcement_id message end_date
            username start_date = .error ⟨400, "Invalid date format"⟩) ∧
       (pyStrip message ≠ "" → end_date ≠ "" → dateOkZ end_date = true →
          truthy start_date = true → dateOkZ (start_date.getD "") = false →
          update_announcement teachers db announcement_id message end_date
            username start_date = .error ⟨400, "Invalid date format"⟩))) := by
  constructor
  · refine ⟨?_, ?_, ?_, ?_⟩
    · intro h1
      simp only [create_announcement, hu]
      rw [if_pos (by simp [h1])]
    · intro h1 h2
      simp only [create_announcement, hu]
      rw [if_neg (by simp [h1]), if_pos (by simp [h2])]
    · intro h1 h2 h3
      simp only [create_announcement, hu]
      rw [if_neg (by simp [h1]), if_neg (by simp [h2]), if_pos (by simp [h3])]
    · intro h1 h2 h3 h4 h5
      simp only [create_announcement, hu]
      rw [if_neg (by simp [h1]), if_neg (by simp [h2]), if_neg (by simp [h3]),
        if_pos (by simp [h4, h5])]
  · intro obj_id A hoid hfind
    refine ⟨?_, ?_, ?_, ?_⟩
    · intro h1
      simp only [update_announcement, hu, hoid, hfind]
      rw [if_pos (by simp [h1])]
    · intro h1 h2
      simp only [update_announcement, hu, hoid, hfind]
      rw [if_neg (by simp [h1]), if_pos (by simp [h2])]
    · intro h1 h2 h3
      simp only [update_announcement, hu, hoid, hfind]
      rw [if_neg (by simp [h1]), if_neg (by simp [h2]), if_pos (by simp [h3])]
    · intro h1 h2 h3 h4 h5
      simp only [update_announcement, hu, hoid, hfind]
      rw [if_neg (by simp [h1]), if_neg (by simp [h2]), if_neg (by simp [h3]),
        if_pos (by simp [h4, h5])]

/-- Witness for C5: a whitespace-only message is rejected first (for create
even on an empty store), and a malformed provided start_date is rejected as
rule 4, on both endpoints. -/
theorem validation_order_witness :
    create_announcement [tAlice] [] "   " "2099-01-01T00:00:00Z" "alice" none
        "2024-06-01T00:00:00" oidB = .error ⟨400, "Message cannot be empty"⟩ ∧
    create_announcement [tAlice] [annA] "Hi" "2099-01-01T00:00:00Z" "alice"
        (some "nope") "2024-06-01T00:00:00" oidB =
      .error ⟨400, "Invalid date format"⟩ ∧
    update_announcement [tAlice] [annA] oidA "   " "2099-01-01T00:00:00Z"
        "alice" none = .error ⟨400, "Message cannot be empty"⟩ ∧
    update_announcement [tAlice] [annA] oidA "Hi" "2099-01-01T00:00:00Z"
        "alice" (some "nope") = .error ⟨400, "Invalid date format"⟩ :=
  ⟨(validation_order [tAlice] [] "xyz" "   " "2099-01-01T00:00:00Z" "alice"
      none "2024-06-01T00:00:00" oidB
      ⟨"alice", "Alice Smith", "teacher"⟩ rfl).1.1 (by decide),
   (validation_order [tAlice] [annA] oidA "Hi" "2099-01-01T00:00:00Z" "alice"
      (some "nope") "2024-06-01T00:00:00" oidB
      ⟨"alice", "Alice Smith", "teacher"⟩ rfl).1.2.2.2
      (by decide) (by decide) (by decide) (by decide) (by decide),
   ((validation_order [tAlice] [annA] oidA "   " "2099-01-01T00:00:00Z" "alice"
      none "2024-06-01T00:00:00" oidB
      ⟨"alice", "Alice Smith", "teacher"⟩ rfl).2 oidA annA (by decide) rfl).1
      (by decide),
   ((validation_order [tAlice] [annA] oidA "Hi" "2099-01-01T00:00:00Z" "alice"
      (some "nope") "2024-06-01T00:00:00" oidB
      ⟨"alice", "Alice Smith", "teacher"⟩ rfl).2 oidA annA (by decide) rfl).2.2.2
      (by decide) (by decide) (by decide) (by decide) (by decide)⟩

/-- C7: for an authorized delete, a malformed id raises 400, a well-formed id
matching no record raises 404, and a successful delete removes the record
permanently, so a subsequent find by that id yields nothing and a second
delete of the same id raises 404 rather than succeeding.  (The `_id` values of
a MongoDB collection are unique, whence the `Nodup` hypothesis.) -/
theorem delete_behavior (teachers : List Teacher) (db : List Announcement)
    (announcement_id username : String) (u : UserInfo)
    (hu : verify_authenticated_user teachers username = .ok u)
    (nodup : (db.map Announcement.oid).Nodup) :
    (parseObjectId announcement_id = none →
      delete_announcement teachers db announcement_id username =
        .error ⟨400, "Invalid announcement ID"⟩) ∧
    (∀ obj_id, parseObjectId announcement_id = some obj_id →
      find_one db obj_id = none →
      delete_announcement teachers db announcement_id username =
        .error ⟨404, "Announcement not found"⟩) ∧
    (∀ obj_id A, parseObjectId announcement_id = some obj_id →
      find_one db obj_id = some A →
      delete_announcement teachers db announcement_id username =
        .ok ((delete_one db obj_id).1, "Announcement deleted successfully") ∧
      find_one (delete_one db obj_id).1 obj_id = none ∧
      delete_announcement teachers (delete_one db obj_id).1 announcement_id
          username = .error ⟨404, "Announcement not found"⟩) := by
  refine ⟨?_, ?_, ?_⟩
  · intro hp
    simp [delete_announcement, hu, hp]
  · intro obj_id hp hf
    simp only [delete_announcement, hu, hp]
    rw [delete_one_not_found db obj_id hf]
    rfl
  · intro obj_id A hp hf
    have hcount := delete_one_count_pos db obj_id A hf
    have hgone := find_one_after_delete db obj_id nodup
    refine ⟨?_, hgone, ?_⟩
    · simp only [delete_announcement, hu, hp]
      rw [show (delete_one db obj_id).2 = 1 from hcount]
      rfl
    · simp only [delete_announcement, hu, hp]
      rw [delete_one_not_found _ obj_id hgone]
      rfl

/-- Witness for C7: deleting the only record empties the store; finding it
again fails and a second delete returns 404. -/
theorem delete_behavior_witness :
    delete_announcement [tAlice] [annA] oidA "alice" =
      .ok ([], "Announcement deleted successfully") ∧
    find_one ([] : List Announcement) oidA = none ∧
    delete_announcement [tAlice] ([] : List Announcement) oidA "alice" =
      .error ⟨404, "Announcement not found"⟩ :=
  (delete_behavior [tAlice] [annA] oidA "alice"
      ⟨"alice", "Alice Smith", "teacher"⟩ rfl (by decide)).2.2
    oidA annA (by decide) rfl

/-- C8: `get_all_announcements` fails exactly as authorization fails and on
success returns every announcement with no time filtering; both it and
`list_active` are sorted by `created_at` descending, with ties kept in
store-native order (stable within one query). -/
theorem list_all_ordering (teachers : List Teacher) (db : List Announcement)
    (username T : String) :
    (∀ e, verify_authenticated_user teachers username = .error e →
      get_all_announcements teachers db username = .error e) ∧
    (∀ u, verify_authenticated_user teachers username = .ok u →
      get_all_announcements teachers db username =
        .ok ((list_all db).map toOut)) ∧
    List.Perm (list_all db) db ∧
    (list_all db).Pairwise createdDesc ∧
    (∀ c, (list_all db).filter (fun a => a.created_at == c) =
      db.filter (fun a => a.created_at == c)) ∧
    (list_active db T).Pairwise createdDesc ∧
    (∀ c, (list_active db T).filter (fun a => a.created_at == c) =
      (db.filter (fun a => activeQuery a T)).filter
        (fun a => a.created_at == c)) := by
  refine ⟨?_, ?_, sortByCreatedAtDesc_perm db, pairwise_sortByCreatedAtDesc db,
    fun c => filter_sortByCreatedAtDesc c db, pairwise_sortByCreatedAtDesc _,
    fun c => filter_sortByCreatedAtDesc c _⟩
  · intro e he
    simp [get_all_announcements, he]
  · intro u hu
    simp [get_all_announcements, hu]

/-- Witness for C8: unauthorized and authorized calls of the management
listing over a two-record store. -/
theorem list_all_ordering_witness :
    get_all_announcements [tAlice] [annOld, annA] "" =
      .error ⟨401, "Authentication required"⟩ ∧
    get_all_announcements [tAlice] [annOld, annA] "alice" =
      .ok ((list_all [annOld, annA]).map toOut) :=
  ⟨(list_all_ordering [tAlice] [annOld, annA] "" nowT).1
      ⟨401, "Authentication required"⟩ rfl,
   (list_all_ordering [tAlice] [annOld, annA] "alice" nowT).2.1
      ⟨"alice", "Alice Smith", "teacher"⟩ rfl⟩

/-- C10: supplying `start_date` as the empty string behaves exactly as
omitting it, on both create (nothing stored in the field, no date validation
of it) and update (existing field removed). -/
theorem empty_start_date_like_omitted (teachers : List Teacher)
    (db : List Announcement)
    (announcement_id message end_date username utcnowIso newId : String) :
    create_announcement teachers db message end_date username (some "")
        utcnowIso newId =
      create_announcement teachers db message end_date username none
        utcnowIso newId ∧
    update_announcement teachers db announcement_id message end_date username
        (some "") =
      update_announcement teachers db announcement_id message end_date username
        none :=
  ⟨rfl, rfl⟩

end Announcements
